import Mathlib

/-!
Shallow embedding of the translator controller hook
(src/frontend/src/hooks/useTranslator.ts) of Solarpaletten/dashka-chatpl.

The hook is single-threaded and event driven: every synchronous segment of
JavaScript between two `await` suspension points (or inside one callback) runs
atomically.  We model each such segment as one Lean step function on an explicit
state record, and a scheduler folds a list of environment events over the state.

React semantics used by the embedding:
* `useRef` cells (abortControllerRef, reconnectAttemptsRef, recognitionRef) are
  shared mutable state: fields of the state records.
* `useState` values (isRecording, translationMode, ...) are per-render
  constants.  A closure created in some render - such as the recognition.onend
  handler installed by initSpeechRecognition - keeps the value of that render
  forever; the setters themselves are stable and always update the live state.
  Recognizer instances therefore carry the captured isRecording snapshot as a
  field, separate from the live flag.
* The cleanup of an effect runs before the next run of the effect, so each
  originalText change first clears the previously pending debounce timer.
-/

namespace DashkaChat

/-- Translation mode, from `type TranslationMode` in useTranslator.ts line 3. -/
inductive TranslationMode
  | manual
  | auto
  deriving DecidableEq

/-- Conversation role, from the `currentRole` state in useTranslator.ts line 8. -/
inductive Role
  | user
  | steuerberater
  deriving DecidableEq

/-- JavaScript truthiness-based default `v || dflt` for an optional string
field: absent fields and the empty string (both falsy) fall back to `dflt`. -/
def jsFalsyOr (v : Option String) (dflt : String) : String :=
  match v with
  | none => dflt
  | some s => if s = "" then dflt else s

/-- Whitespace test used by the JavaScript `String.prototype.trim`. -/
def jsIsWhitespace (c : Char) : Bool :=
  c = ' ' || c = '\t' || c = '\n' || c = '\r'

/-- JavaScript `text.trim()`: strips leading and trailing whitespace. -/
def jsTrim (s : String) : String :=
  String.mk (((s.toList.dropWhile jsIsWhitespace).reverse.dropWhile
    jsIsWhitespace).reverse)

/-- Status strings published by the hook (literals from useTranslator.ts). -/
def statusReady : String := "🟢 Готов"

/-- Status shown while a translation request is in flight (line 201). -/
def statusTranslating : String := "🔄 Перевод..."

/-- Status shown when a non-cancellation translation error occurs (line 265). -/
def statusTranslateError : String := "❌ Ошибка перевода"

/-- Success status `✅ ${fromLang} → ${toLang}` published at line 238. -/
def statusSuccess (fromLang toLang : String) : String :=
  "✅ " ++ fromLang ++ " → " ++ toLang

/-- Status shown while capture is active (lines 143 and 283). -/
def statusRecording : String := "🎤 Запись..."

/-- Status shown by stopRecording (line 294). -/
def statusStopped : String := "⏹️ Остановлено"

/-- Status shown when the recognizer was never created (line 275). -/
def statusNoMic : String := "❌ Микрофон недоступен"

/-- Status shown when the speech flag is down (line 279). -/
def statusSpeechNotReady : String := "❌ Speech recognition не готов"

/-! ## Translation pipeline (performTranslation, lines 176 to 270) -/

/-- Observable state touched by the translation pipeline.  AbortControllers are
identified by allocation number: `abortCtrl` is the controller currently held
in `abortControllerRef`, `abortedTokens` records every controller on which
`abort()` has been called, and `nextToken` is model bookkeeping for fresh
identifiers. -/
structure PipelineState where
  translatedText : String
  status : String
  isTranslating : Bool
  recognitionLang : String
  abortCtrl : Option Nat
  abortedTokens : List Nat
  nextToken : Nat
  deriving DecidableEq

/-- Initial pipeline state after mount (useState initializers, lines 10 to 17). -/
def initPipelineState : PipelineState :=
  { translatedText := "", status := statusReady, isTranslating := false,
    recognitionLang := "ru-RU", abortCtrl := none, abortedTokens := [],
    nextToken := 0 }

/-- Arguments of one performTranslation invocation.  `mode` and `role` are the
per-render snapshots of translationMode and currentRole seen by the invoking
closure. -/
structure TaskInput where
  text : String
  mode : TranslationMode
  role : Role
  deriving DecidableEq

/-- Continuation point of one performTranslation invocation between two of its
atomic segments.  `awaitFetch` records the language pair already computed and
the identifier of the AbortController whose signal was passed to the fetch. -/
inductive TaskPhase
  | start (inp : TaskInput)
  | awaitDetect (inp : TaskInput)
  | awaitFetch (fromLang toLang : String) (sigToken : Nat)
  | done
  deriving DecidableEq

/-- Result of `result.detected_language || 'RU'` with the catch fallback
(detectLanguage, lines 176 to 188).  `none` is a failed call (catch branch),
`some field` is a parsed response whose `detected_language` field is `field`. -/
def detectLanguage (response : Option (Option String)) : String :=
  match response with
  | none => "RU"
  | some field => jsFalsyOr field "RU"

/-- Language pair chosen in auto mode from the detection result
(lines 211 to 217). -/
def autoLangPair (detected : String) : String × String :=
  if detected = "RU" then ("RU", "DE") else (detected, "RU")

/-- Language pair chosen in manual mode from the current role
(lines 219 to 220). -/
def manualLangPair (role : Role) : String × String :=
  (if role = Role.user then "RU" else "DE",
   if role = Role.user then "DE" else "RU")

/-- Locale written by `setRecognitionLang(detected === 'RU' ? 'ru-RU' : 'de-DE')`
at line 209; note that the source applies this in both branches. -/
def detectedLocale (detected : String) : String :=
  if detected = "RU" then "ru-RU" else "de-DE"

/-- First synchronous segment of performTranslation (lines 190 to 221 up to the
first await): guard, abort of the previous controller, installation of a fresh
controller, in-flight flag and status, and language resolution.  In manual mode
the same segment also issues the fetch, whose signal is read from
`abortControllerRef.current` at that moment - the freshly installed token. -/
def performTranslationStart (s : PipelineState) (inp : TaskInput) :
    PipelineState × TaskPhase :=
  if jsTrim inp.text = "" ∨ inp.text.length < 3 then (s, TaskPhase.done)
  else
    let abortedNow := match s.abortCtrl with
      | some t => t :: s.abortedTokens
      | none => s.abortedTokens
    let tok := s.nextToken
    let s1 : PipelineState :=
      { s with abortedTokens := abortedNow, abortCtrl := some tok,
               nextToken := s.nextToken + 1, isTranslating := true,
               status := statusTranslating }
    match inp.mode with
    | TranslationMode.auto => (s1, TaskPhase.awaitDetect inp)
    | TranslationMode.manual =>
        let p := manualLangPair inp.role
        (s1, TaskPhase.awaitFetch p.1 p.2 tok)

/-- Segment of performTranslation that resumes after `await detectLanguage`
(lines 208 to 231): locale update, language pair, and the fetch call, whose
signal is `abortControllerRef.current.signal` read at this moment - the token
currently in the shared ref, not necessarily the one this task installed. -/
def performTranslationDetect (s : PipelineState)
    (response : Option (Option String)) : PipelineState × TaskPhase :=
  let detected := detectLanguage response
  let s1 : PipelineState := { s with recognitionLang := detectedLocale detected }
  let p := autoLangPair detected
  (s1, TaskPhase.awaitFetch p.1 p.2 (s1.abortCtrl.getD 0))

/-- Environment outcome of one translate fetch: a parsed response whose
`translated_text` field is carried as an optional string, or a thrown error
with its message. -/
inductive FetchOutcome
  | success (translatedField : Option String)
  | failure (message : String)
  deriving DecidableEq

/-- Completion segment of performTranslation (lines 234 to 269).  If the signal
passed to the fetch has been aborted by the time this handler runs, the promise
rejects with AbortError and the catch returns with no writes; the finally
clears the in-flight flag in every path.  Otherwise a success publishes
`result.translated_text || ''` and the success status, and a failure publishes
the error status and message. -/
def performTranslationFetch (s : PipelineState) (fromLang toLang : String)
    (sigToken : Nat) (outcome : FetchOutcome) : PipelineState × TaskPhase :=
  if sigToken ∈ s.abortedTokens then
    ({ s with isTranslating := false }, TaskPhase.done)
  else
    match outcome with
    | FetchOutcome.success field =>
        ({ s with translatedText := jsFalsyOr field "",
                  status := statusSuccess fromLang toLang,
                  isTranslating := false }, TaskPhase.done)
    | FetchOutcome.failure msg =>
        ({ s with status := statusTranslateError,
                  translatedText := "Ошибка: " ++ msg,
                  isTranslating := false }, TaskPhase.done)

/-- Scheduler event: the environment either lets a new performTranslation
invocation run its first segment, or delivers the detection response or the
fetch outcome to the waiting task with the given index. -/
inductive Event
  | start (inp : TaskInput)
  | detectDone (tid : Nat) (response : Option (Option String))
  | fetchDone (tid : Nat) (outcome : FetchOutcome)

/-- Pipeline state together with the continuation of every invocation started
so far (task `i` is the `i`-th element). -/
structure SysState where
  pipe : PipelineState
  tasks : List TaskPhase

/-- Initial system state: no tasks yet. -/
def initSysState : SysState :=
  { pipe := initPipelineState, tasks := [] }

/-- One scheduler step.  An event aimed at a task that is not at the matching
suspension point is a no-op. -/
def stepEvent (σ : SysState) (e : Event) : SysState :=
  match e with
  | Event.start inp =>
      let r := performTranslationStart σ.pipe inp
      { pipe := r.1, tasks := σ.tasks ++ [r.2] }
  | Event.detectDone tid response =>
      match σ.tasks.get? tid with
      | some (TaskPhase.awaitDetect _) =>
          let r := performTranslationDetect σ.pipe response
          { pipe := r.1, tasks := σ.tasks.set tid r.2 }
      | _ => σ
  | Event.fetchDone tid outcome =>
      match σ.tasks.get? tid with
      | some (TaskPhase.awaitFetch f t sig) =>
          let r := performTranslationFetch σ.pipe f t sig outcome
          { pipe := r.1, tasks := σ.tasks.set tid r.2 }
      | _ => σ

/-- Run a list of scheduler events. -/
def runEvents (σ : SysState) (es : List Event) : SysState :=
  es.foldl stepEvent σ

/-- Detection result as the specification words it: the value of the response
field, with `RU` substituted only when the field is absent or the call failed.
Modelled from the spec for comparison with `detectLanguage`; the source applies
the JavaScript falsy default, which also replaces a present empty field. -/
def specDetectionResult (response : Option (Option String)) : String :=
  match response with
  | none => "RU"
  | some none => "RU"
  | some (some s) => s

/-! ## Debounce effect (useTranslator.ts lines 46 to 59) -/

/-- Debounce delay of the originalText effect, milliseconds (line 56). -/
def debounceDelay : Nat := 500

/-- State touched by the debounced originalText effect: the published
translation, the status, and the single pending timer slot (scheduled text and
delay). -/
structure EffectState where
  translatedText : String
  status : String
  pendingTimer : Option (String × Nat)
  deriving DecidableEq

/-- One originalText change (lines 46 to 59).  React first runs the cleanup of
the previous effect, clearing any pending timer; the new effect then returns
early for text shorter than 3 characters - additionally clearing the published
translation at length exactly 0 - and otherwise schedules performTranslation
after the fixed 500ms delay. -/
def utteranceChange (s : EffectState) (text : String) : EffectState :=
  let s1 : EffectState := { s with pendingTimer := none }
  if text.length < 3 then
    if text.length = 0 then { s1 with translatedText := "" } else s1
  else
    { s1 with pendingTimer := some (text, debounceDelay) }

/-- Fold a burst of rapid originalText updates, none of whose timers fires
before the next update arrives. -/
def runBurst (s : EffectState) (burst : List String) : EffectState :=
  burst.foldl utteranceChange s

/-- Text handed to performTranslation when the quiet period finally elapses:
the content of the single pending timer slot, if any. -/
def firedCall (s : EffectState) : Option String :=
  s.pendingTimer.map Prod.fst

/-! ## Channel manager (initWebSocket and scheduleReconnect, lines 90 to 126) -/

/-- Backoff schedule, from `const delays` at line 117. -/
def reconnectDelays : List Nat := [1000, 2000, 5000, 10000, 30000]

/-- State owned by the channel manager: the reconnect attempt counter held in
`reconnectAttemptsRef`. -/
structure ChannelState where
  attempts : Nat
  deriving DecidableEq

/-- Delay chosen by scheduleReconnect (line 118):
`delays[Math.min(attempts, delays.length - 1)]`. -/
def scheduleReconnect (c : ChannelState) : Nat :=
  reconnectDelays.getD (min c.attempts (reconnectDelays.length - 1)) 0

/-- Firing of the reconnect timer (lines 122 to 125): the attempt counter is
incremented before initWebSocket retries. -/
def reconnectFire (c : ChannelState) : ChannelState :=
  { c with attempts := c.attempts + 1 }

/-- Handler ws.onopen (lines 94 to 98): a successful open resets the attempt
counter to zero. -/
def wsOnOpen (c : ChannelState) : ChannelState :=
  { c with attempts := 0 }

/-- Channel state reached after a given number of consecutive failures starting
from a fresh counter: each failure schedules a reconnect whose timer increments
the counter before retrying. -/
def attemptsAfterFailures : Nat → ChannelState
  | 0 => ChannelState.mk 0
  | n + 1 => reconnectFire (attemptsAfterFailures n)

/-! ## Capture source (initSpeechRecognition, startRecording, stopRecording) -/

/-- One recognizer instance created by initSpeechRecognition.
`capturedIsRecording` is the isRecording value of the render whose
initSpeechRecognition call built this instance: the onend handler at lines 162
to 170 reads that captured constant, not the live flag. -/
structure RecognitionInstance where
  capturedIsRecording : Bool
  running : Bool
  lang : String
  deriving DecidableEq

/-- State of the capture subsystem: the live isRecording flag, the status, the
current recognizer instance, whether `recognitionRef.current` is set, and the
`connectionStatus.speech` flag. -/
structure CaptureState where
  isRecording : Bool
  status : String
  recognition : RecognitionInstance
  hasRecognition : Bool
  speechAvailable : Bool
  deriving DecidableEq

/-- Capture state after mount: initSystem runs initSpeechRecognition from the
first render, where isRecording is false, so the onend closure of the mount
instance captured false. -/
def mountCaptureState : CaptureState :=
  { isRecording := false, status := statusReady,
    recognition :=
      { capturedIsRecording := false, running := false, lang := "ru-RU" },
    hasRecognition := true, speechAvailable := true }

/-- startRecording (lines 273 to 290): guards, then the live flag and status
are set and the recognizer is started; a throwing start clears the flag. -/
def startRecording (s : CaptureState) (startThrows : Bool) : CaptureState :=
  if !s.hasRecognition then { s with status := statusNoMic }
  else if !s.speechAvailable then { s with status := statusSpeechNotReady }
  else
    let s1 : CaptureState :=
      { s with isRecording := true, status := statusRecording }
    if startThrows then { s1 with isRecording := false }
    else { s1 with recognition := { s1.recognition with running := true } }

/-- stopRecording (lines 292 to 302): the live flag is cleared first, then the
status is set and termination of the recognizer is requested. -/
def stopRecording (s : CaptureState) : CaptureState :=
  let s1 : CaptureState :=
    { s with isRecording := false, status := statusStopped }
  if s1.hasRecognition then
    { s1 with recognition := { s1.recognition with running := false } }
  else s1

/-- Handler recognition.onend (lines 162 to 170).  The recognizer has stopped;
the handler tests the isRecording constant captured when the instance was
created.  If that snapshot is true it restarts the recognizer, and a throwing
restart clears the live flag through the stable setter. -/
def recognitionOnEnd (s : CaptureState) (restartThrows : Bool) : CaptureState :=
  let s1 : CaptureState :=
    { s with recognition := { s.recognition with running := false } }
  if s1.recognition.capturedIsRecording then
    if restartThrows then { s1 with isRecording := false }
    else { s1 with recognition := { s1.recognition with running := true } }
  else s1

/-- Capture-subsystem effect of toggleTranslationMode (lines 312 to 329): the
live recognizer is stopped, and initSpeechRecognition - invoked from the render
that handled the toggle - installs a fresh instance whose onend closure
captures the isRecording value of that render. -/
def toggleModeReinitCapture (s : CaptureState) (newLang : String) :
    CaptureState :=
  { s with
    recognition :=
      { capturedIsRecording := s.isRecording, running := false,
        lang := newLang },
    hasRecognition := true, speechAvailable := true }

/-! ## Concrete scenarios used below -/

/-- Overlapping-request scenario, older task A: auto mode, Cyrillic input. -/
def c1InputA : TaskInput :=
  TaskInput.mk "Привет, мир" TranslationMode.auto Role.user

/-- Overlapping-request scenario, newer task B: manual mode, counterpart role,
so B publishes the pair DE → RU, distinct from the pair of A. -/
def c1InputB : TaskInput :=
  TaskInput.mk "hallo" TranslationMode.manual Role.steuerberater

/-- Trace prefix: A starts and suspends on detection; B starts (aborting the
controller of A and installing its own), A resumes reading the shared ref, and
B completes first. -/
def c1TraceBDone : List Event :=
  [Event.start c1InputA,
   Event.start c1InputB,
   Event.detectDone 0 (some (some "RU")),
   Event.fetchDone 1 (FetchOutcome.success (some "B Antwort"))]

/-- Full trace: after B completed, the fetch of A also completes. -/
def c1TraceFull : List Event :=
  c1TraceBDone ++ [Event.fetchDone 0 (FetchOutcome.success (some "A Antwort"))]

/-- Auto-mode request whose detection returns DE, driving the locale to de-DE. -/
def c2Trace1 : List Event :=
  [Event.start (TaskInput.mk "Hallo zusammen" TranslationMode.auto Role.user),
   Event.detectDone 0 (some (some "DE"))]

/-- Continuation: that request completes and a second auto-mode request sees
detection RU. -/
def c2Trace2 : List Event :=
  c2Trace1 ++
  [Event.fetchDone 0 (FetchOutcome.success (some "Привет всем")),
   Event.start (TaskInput.mk "Привет" TranslationMode.auto Role.user),
   Event.detectDone 1 (some (some "RU"))]

/-- Sample effect state holding a previously published translation. -/
def c5SampleEffect : EffectState := EffectState.mk "prev" statusReady none

/-- Sample two-character input. -/
def c5SampleInput : TaskInput :=
  TaskInput.mk "ab" TranslationMode.auto Role.user

/-- Capture state after: start capture, toggle the translation mode while
recording (the replacement recognizer captures isRecording = true), start the
replacement recognizer, then stopRecording. -/
def c7AfterStop : CaptureState :=
  stopRecording (startRecording (toggleModeReinitCapture
    (startRecording mountCaptureState false) "ru-RU") false)

/-- Capture state after starting capture on the recognizer created at mount
(whose onend closure captured isRecording = false). -/
def c8Started : CaptureState := startRecording mountCaptureState false

/-! ## Role handling (handleRoleChange, lines 331 to 338) -/

/-- State touched by handleRoleChange: the mode, the current role, and the lang
property of the live recognizer instance. -/
structure RoleState where
  translationMode : TranslationMode
  currentRole : Role
  recognitionInstanceLang : String
  deriving DecidableEq

/-- handleRoleChange (lines 331 to 338): only in manual mode does it set the
role and rewrite the recognizer locale; in auto mode the body is skipped. -/
def handleRoleChange (s : RoleState) (role : Role) : RoleState :=
  if s.translationMode = TranslationMode.manual then
    { s with currentRole := role,
             recognitionInstanceLang :=
               if role = Role.user then "ru-RU" else "de-DE" }
  else s

/-! ## Helper lemmas -/

/-- Attempt counter after n consecutive failures from a fresh channel. -/
theorem attemptsAfterFailures_attempts (n : Nat) :
    (attemptsAfterFailures n).attempts = n := by
  induction n with
  | zero => rfl
  | succ k ih => simp [attemptsAfterFailures, reconnectFire, ih]

/-- JavaScript falsy default with an empty-string fallback coincides with the
plain optional default. -/
theorem jsFalsyOr_empty (field : Option String) :
    jsFalsyOr field "" = field.getD "" := by
  cases field with
  | none => rfl
  | some v => by_cases hv : v = "" <;> simp [jsFalsyOr, hv]

/-- Pending-timer slot after a single originalText change. -/
theorem utteranceChange_pendingTimer (s : EffectState) (u : String) :
    (utteranceChange s u).pendingTimer
      = (if u.length < 3 then none else some (u, debounceDelay)) := by
  by_cases h : u.length < 3
  · by_cases h0 : u.length = 0 <;> simp [utteranceChange, h, h0]
  · simp [utteranceChange, h]

/-! ## Claim theorems -/

/-- C1: the claim states that after a newer request B starts, the completion of
the older request A never overwrites the published translation result or
status.  The code violates this: in auto mode A suspends on the detection call
(which carries no abort signal), B then aborts the controller of A and installs
its own, and when A resumes it reads the signal from the shared ref - the live
token of B - so the fetch of A is never aborted and its completion overwrites
the result and status that B published.  This theorem evaluates the model on
that interleaving: B publishes "B Antwort" with status ✅ DE → RU, A resumed
holding token 1 (the token of B), and the later completion of A overwrites both
fields. -/
theorem C1_race_overwrite_after_supersession :
    (runEvents initSysState [Event.start c1InputA, Event.start c1InputB,
        Event.detectDone 0 (some (some "RU"))]).tasks.get? 0
        = some (TaskPhase.awaitFetch "RU" "DE" 1)
    ∧ (runEvents initSysState c1TraceBDone).pipe.translatedText = "B Antwort"
    ∧ (runEvents initSysState c1TraceBDone).pipe.status
        = statusSuccess "DE" "RU"
    ∧ (runEvents initSysState c1TraceFull).pipe.translatedText = "A Antwort"
    ∧ (runEvents initSysState c1TraceFull).pipe.status
        = statusSuccess "RU" "DE"
    ∧ (runEvents initSysState c1TraceFull).pipe.abortedTokens = [0] :=
  ⟨rfl, rfl, rfl, rfl, rfl, rfl⟩

/-- C2 counterexample: the claim states that a detection result of RU does NOT
update the capture recognition locale.  In the code line 209 writes the locale
in both branches: starting from locale de-DE (reached through a non-RU
detection), a subsequent RU detection sets the locale to ru-RU while the
request uses the pair RU → DE. -/
theorem C2_counterexample :
    (runEvents initSysState c2Trace1).pipe.recognitionLang = "de-DE"
    ∧ (runEvents initSysState c2Trace2).pipe.recognitionLang = "ru-RU"
    ∧ (runEvents initSysState c2Trace2).tasks.get? 1
        = some (TaskPhase.awaitFetch "RU" "DE" 1) :=
  ⟨rfl, rfl, rfl⟩

/-- C2 amended: in auto mode the detection segment always rewrites the capture
recognition locale - to ru-RU when the detection result is RU, to de-DE
otherwise - and a RU result issues the request with source RU and target DE. -/
theorem C2_amended_locale_both_branches (s : PipelineState)
    (response : Option (Option String)) :
    ((performTranslationDetect s response).1.recognitionLang
        = (if detectLanguage response = "RU" then "ru-RU" else "de-DE"))
    ∧ (detectLanguage response = "RU" →
        (performTranslationDetect s response).2
          = TaskPhase.awaitFetch "RU" "DE" (s.abortCtrl.getD 0)) := by
  constructor
  · by_cases h : detectLanguage response = "RU" <;>
      simp [performTranslationDetect, detectedLocale, h]
  · intro h
    simp [performTranslationDetect, detectedLocale, autoLangPair, h]

/-- C2 witness: the amended theorem applied at a concrete RU detection. -/
theorem C2_amended_witness :
    detectLanguage (some (some "RU")) = "RU"
    ∧ (performTranslationDetect initPipelineState (some (some "RU"))).2
        = TaskPhase.awaitFetch "RU" "DE" (initPipelineState.abortCtrl.getD 0) :=
  ⟨by decide,
   (C2_amended_locale_both_branches initPipelineState
      (some (some "RU"))).2 (by decide)⟩

/-- C3 counterexample: the claim allows the RU default only for an absent field
or a failed call, so a present empty field would have to resolve to source
empty, target RU.  The code applies the JavaScript falsy default, so a present
empty field also becomes RU and the pair is RU → DE. -/
theorem C3_counterexample :
    detectLanguage (some (some "")) = "RU"
    ∧ specDetectionResult (some (some "")) = ""
    ∧ autoLangPair (detectLanguage (some (some ""))) = ("RU", "DE")
    ∧ autoLangPair (specDetectionResult (some (some ""))) = ("", "RU")
    ∧ (("RU", "DE") : String × String) ≠ ("", "RU") := by
  refine ⟨rfl, rfl, rfl, rfl, by decide⟩

/-- C3 amended: per-request language resolution, with the detection result
defaulting to RU when the response field is absent, is the empty string, or
the call fails; any other detected value maps to source detected, target RU,
a RU result maps to RU → DE, and manual mode depends only on the role. -/
theorem C3_amended_language_resolution (field : String) (h1 : field ≠ "")
    (h2 : field ≠ "RU") :
    detectLanguage none = "RU"
    ∧ detectLanguage (some none) = "RU"
    ∧ detectLanguage (some (some "")) = "RU"
    ∧ detectLanguage (some (some field)) = field
    ∧ autoLangPair "RU" = ("RU", "DE")
    ∧ autoLangPair field = (field, "RU")
    ∧ manualLangPair Role.user = ("RU", "DE")
    ∧ manualLangPair Role.steuerberater = ("DE", "RU") := by
  refine ⟨rfl, rfl, rfl, ?_, by decide, ?_, by decide, by decide⟩
  · simp [detectLanguage, jsFalsyOr, h1]
  · simp [autoLangPair, h2]

/-- C3 witness: the amended theorem applied at the detected value DE. -/
theorem C3_amended_witness :
    (("DE" : String) ≠ "" ∧ ("DE" : String) ≠ "RU")
    ∧ (detectLanguage none = "RU"
      ∧ detectLanguage (some none) = "RU"
      ∧ detectLanguage (some (some "")) = "RU"
      ∧ detectLanguage (some (some "DE")) = "DE"
      ∧ autoLangPair "RU" = ("RU", "DE")
      ∧ autoLangPair "DE" = ("DE", "RU")
      ∧ manualLangPair Role.user = ("RU", "DE")
      ∧ manualLangPair Role.steuerberater = ("DE", "RU")) :=
  ⟨⟨by decide, by decide⟩,
   C3_amended_language_resolution "DE" (by decide) (by decide)⟩

/-- C4: every originalText change first cancels the pending debounce timer and,
when long enough, schedules the fixed 500ms timer for its own text, so after
any burst of rapid updates only the last update determines the translation call
that fires when the quiet period elapses. -/
theorem C4_debounce_last_update_wins (es : EffectState) (burst : List String)
    (u : String) :
    (runBurst es (burst ++ [u])).pendingTimer
        = (if u.length < 3 then none else some (u, debounceDelay))
    ∧ firedCall (runBurst es (burst ++ [u]))
        = (if u.length < 3 then none else some u)
    ∧ debounceDelay = 500 := by
  have hr : runBurst es (burst ++ [u])
      = utteranceChange (runBurst es burst) u := by
    simp [runBurst, List.foldl_append]
  refine ⟨?_, ?_, rfl⟩
  · rw [hr, utteranceChange_pendingTimer]
  · rw [hr]
    simp only [firedCall, utteranceChange_pendingTimer]
    by_cases h : u.length < 3 <;> simp [h]

/-- C5: an utterance shorter than 3 characters issues no translation call and
leaves the status unchanged; only the transition to length exactly 0 also
clears the published translation.  The direct performTranslation guard likewise
returns with the pipeline state untouched. -/
theorem C5_short_input_no_side_effects (es : EffectState) (ps : PipelineState)
    (inp : TaskInput) (h : inp.text.length < 3) :
    (utteranceChange es inp.text).status = es.status
    ∧ (utteranceChange es inp.text).pendingTimer = none
    ∧ (utteranceChange es inp.text).translatedText
        = (if inp.text.length = 0 then "" else es.translatedText)
    ∧ performTranslationStart ps inp = (ps, TaskPhase.done) := by
  refine ⟨?_, ?_, ?_, ?_⟩
  · by_cases h0 : inp.text.length = 0 <;> simp [utteranceChange, h, h0]
  · rw [utteranceChange_pendingTimer]; simp [h]
  · by_cases h0 : inp.text.length = 0 <;> simp [utteranceChange, h, h0]
  · unfold performTranslationStart
    rw [if_pos (Or.inr h)]

/-- C5 witness: the theorem applied at the two-character input ab. -/
theorem C5_witness :
    c5SampleInput.text.length < 3
    ∧ ((utteranceChange c5SampleEffect c5SampleInput.text).status
          = c5SampleEffect.status
      ∧ (utteranceChange c5SampleEffect c5SampleInput.text).pendingTimer = none
      ∧ (utteranceChange c5SampleEffect c5SampleInput.text).translatedText
          = (if c5SampleInput.text.length = 0 then ""
             else c5SampleEffect.translatedText)
      ∧ performTranslationStart initPipelineState c5SampleInput
          = (initPipelineState, TaskPhase.done)) :=
  ⟨by decide,
   C5_short_input_no_side_effects c5SampleEffect initPipelineState
     c5SampleInput (by decide)⟩

/-- C6: the n-th scheduled reconnect delay after n consecutive failures from a
fresh counter is schedule[min(n, length - 1)] over 1s, 2s, 5s, 10s, 30s, so the
delay plateaus at 30s from the fifth failure on; the timer increments the
attempt counter before each retry and a successful open resets it to zero. -/
theorem C6_backoff_schedule (n : Nat) (c : ChannelState) :
    scheduleReconnect (attemptsAfterFailures n)
        = reconnectDelays.getD (min n (reconnectDelays.length - 1)) 0
    ∧ (4 ≤ n → scheduleReconnect (attemptsAfterFailures n) = 30000)
    ∧ (reconnectFire c).attempts = c.attempts + 1
    ∧ (wsOnOpen c).attempts = 0 := by
  refine ⟨?_, ?_, rfl, rfl⟩
  · unfold scheduleReconnect
    rw [attemptsAfterFailures_attempts]
  · intro h
    unfold scheduleReconnect
    rw [attemptsAfterFailures_attempts]
    have hmin : min n (reconnectDelays.length - 1) = 4 := by
      simp [reconnectDelays]
      omega
    rw [hmin]
    rfl

/-- C6 witness: the theorem applied after seven consecutive failures. -/
theorem C6_witness :
    4 ≤ 7 ∧ scheduleReconnect (attemptsAfterFailures 7) = 30000 :=
  ⟨by decide, (C6_backoff_schedule 7 (ChannelState.mk 0)).2.1 (by decide)⟩

/-- C7: the claim states that after stopRecording capture never resumes even if
a recognizer end event fires.  The onend handler, however, tests the
isRecording snapshot captured by the render that created the recognizer, not
the live flag that stopRecording cleared.  Evaluating the model on the
reachable scenario where the recognizer was created while recording (mode
toggle during capture): after stopRecording the live flag is false, yet the end
event restarts the recognizer. -/
theorem C7_stop_does_not_prevent_restart :
    c7AfterStop.isRecording = false
    ∧ c7AfterStop.recognition.capturedIsRecording = true
    ∧ c7AfterStop.recognition.running = false
    ∧ (recognitionOnEnd c7AfterStop false).recognition.running = true :=
  ⟨rfl, rfl, rfl, rfl⟩

/-- C8: the claim states that an unsolicited end event with the capture intent
flag still on attempts an immediate restart.  For the recognizer created at
mount the onend closure captured isRecording = false from the first render, so
with the live flag on the handler does nothing: the recognizer stays stopped
while the live flag remains true. -/
theorem C8_restart_not_attempted_with_live_flag_on :
    c8Started.isRecording = true
    ∧ c8Started.recognition.capturedIsRecording = false
    ∧ (recognitionOnEnd c8Started false).recognition.running = false
    ∧ (recognitionOnEnd c8Started false).isRecording = true :=
  ⟨rfl, rfl, rfl, rfl⟩

/-- C9: when the fetch signal has not been aborted, a successful response
publishes its translated_text field - defaulting to the empty string when the
field is absent - as the translation result, and publishes the success status
carrying the attempted language pair; the in-flight flag is cleared. -/
theorem C9_success_publishes_field_and_pair (s : PipelineState)
    (fromLang toLang : String) (sig : Nat) (field : Option String)
    (h : sig ∉ s.abortedTokens) :
    (performTranslationFetch s fromLang toLang sig
        (FetchOutcome.success field)).1.translatedText = field.getD ""
    ∧ (performTranslationFetch s fromLang toLang sig
        (FetchOutcome.success field)).1.status = statusSuccess fromLang toLang
    ∧ (performTranslationFetch s fromLang toLang sig
        (FetchOutcome.success field)).1.isTranslating = false := by
  unfold performTranslationFetch
  rw [if_neg h]
  exact ⟨jsFalsyOr_empty field, rfl, rfl⟩

/-- C9 witness: a response without the translated_text field, against the
attempted pair RU → DE, publishes the empty string and the pair status. -/
theorem C9_witness :
    (0 : Nat) ∉ initPipelineState.abortedTokens
    ∧ ((performTranslationFetch initPipelineState "RU" "DE" 0
          (FetchOutcome.success none)).1.translatedText = Option.getD none ""
      ∧ (performTranslationFetch initPipelineState "RU" "DE" 0
          (FetchOutcome.success none)).1.status = statusSuccess "RU" "DE"
      ∧ (performTranslationFetch initPipelineState "RU" "DE" 0
          (FetchOutcome.success none)).1.isTranslating = false) :=
  ⟨by decide,
   C9_success_publishes_field_and_pair initPipelineState "RU" "DE" 0 none
     (by decide)⟩

/-- C10: in auto mode handleRoleChange is a complete no-op - the state,
including the current role and the recognizer locale, is returned unchanged for
every requested role. -/
theorem C10_role_change_noop_in_auto (s : RoleState) (role : Role)
    (h : s.translationMode = TranslationMode.auto) :
    handleRoleChange s role = s := by
  unfold handleRoleChange
  rw [h]
  simp

/-- C10 witness: the theorem applied at a concrete auto-mode state. -/
theorem C10_witness :
    (RoleState.mk TranslationMode.auto Role.user "ru-RU").translationMode
        = TranslationMode.auto
    ∧ handleRoleChange (RoleState.mk TranslationMode.auto Role.user "ru-RU")
        Role.steuerberater
      = RoleState.mk TranslationMode.auto Role.user "ru-RU" :=
  ⟨rfl, C10_role_change_noop_in_auto _ _ rfl⟩

end DashkaChat
